import Mathlib

/-!
# Verification of the M5250 router telemetry client (`m5250.py`)

A shallow embedding of the TP-Link M5250 client.  The HTTP transport is
abstracted as the response the device would return; everything downstream of
the response (the status check, the regular-expression extraction, the token
decoding, and the mutation of the `self.data` dictionary) is translated
statement by statement from the source.  Pure helpers keep the source's
names (with the leading underscore of the Python statics dropped).
-/

deriving instance DecidableEq for Except

namespace M5250

/-! ## Python string primitives -/

/-- The ASCII whitespace characters matched by Python's `\s` class and removed
by `''.join(s.split())` in the source: space, tab, newline, carriage return,
vertical tab, form feed. -/
def pyWS (c : Char) : Bool :=
  c == ' ' || c == '\t' || c == '\n' || c == '\r' || c == '\x0b' || c == '\x0c'

/-- Strip an expected run of characters from the front of a list:
`stripPre p l = some r` exactly when `l = p ++ r`.  Models matching a literal
piece of a regular expression. -/
def stripPre : List Char → List Char → Option (List Char)
  | [], l => some l
  | _ :: _, [] => none
  | p :: ps, x :: xs => if x = p then stripPre ps xs else none

/-- Try to match, at the current position, the regex shape
`LITERAL ([class]*) LITERAL` (as in `new Array\(([0-9\s,]*)\);`): the literal
head, a greedy run of class characters (the capture group), then the literal
tail.  In every pattern of `m5250.py` the tail's first character `)` is not in
the class, so Python's backtracking can never yield anything but the maximal
run, and this function is exact. -/
def matchAt (pat : List Char) (cls : Char → Bool) (suf : List Char)
    (l : List Char) : Option (List Char) :=
  match stripPre pat l with
  | none => none
  | some rest =>
    match stripPre suf (rest.dropWhile cls) with
    | some _ => some (rest.takeWhile cls)
    | none => none

/-- Model of `re.search` for the star-quantified patterns: try every start
position, left to right. -/
def searchCCS (pat : List Char) (cls : Char → Bool) (suf : List Char) :
    List Char → Option (List Char)
  | [] => matchAt pat cls suf []
  | x :: xs =>
    match matchAt pat cls suf (x :: xs) with
    | some g => some g
    | none => searchCCS pat cls suf xs

/-- Like `matchAt` but for a plus-quantified group (`(\d+)` in the
`session_id` pattern): the run must be nonempty.  Again the tail character
`"` is not a digit, so greedy matching is exact. -/
def matchAtPlus (pat : List Char) (cls : Char → Bool) (suf : List Char)
    (l : List Char) : Option (List Char) :=
  match stripPre pat l with
  | none => none
  | some rest =>
    if rest.takeWhile cls = [] then none
    else
      match stripPre suf (rest.dropWhile cls) with
      | some _ => some (rest.takeWhile cls)
      | none => none

/-- `re.search` for the plus-quantified `session_id` pattern. -/
def searchPlus (pat : List Char) (cls : Char → Bool) (suf : List Char) :
    List Char → Option (List Char)
  | [] => matchAtPlus pat cls suf []
  | x :: xs =>
    match matchAtPlus pat cls suf (x :: xs) with
    | some g => some g
    | none => searchPlus pat cls suf xs

/-- Python `str.split(',')` on a list of characters; `splitComma [] = [[]]`,
mirroring `''.split(',') == ['']`. -/
def splitComma : List Char → List (List Char)
  | [] => [[]]
  | c :: t =>
    if c = ',' then [] :: splitComma t
    else
      match splitComma t with
      | [] => [[c]]
      | h :: r => (c :: h) :: r

/-- `(''.join(group.split())).split(',')`: remove every whitespace character,
then split on commas. -/
def tokensOf (g : List Char) : List String :=
  (splitComma (g.filter (fun c => !pyWS c))).map List.asString

/-- Python slice `s[1:-1]`: drop the first and the last character, whatever
they are; strings of length at most 2 become empty. -/
def pySlice1m1 (s : String) : String :=
  ((s.toList.drop 1).dropLast).asString

/-- The failure modes of the client, named after the spec's error taxonomy:
`authError` is `RuntimeError('Unauthorized')` or
`RuntimeError('Authorization failed')`; `transportError` is
`RuntimeError('Got ... response.')` carrying the status; `parseError` is
`ValueError('Cannot parse page output.')`; `indexError` is a Python
`IndexError` from list subscripting; `valueError` is the `ValueError` raised
by `int()` on a non-numeric string. -/
inductive Err where
  | authError
  | transportError (status : Nat)
  | parseError
  | indexError
  | valueError
deriving DecidableEq

/-- Python list subscript `l[i]` for a nonnegative index: `IndexError` when
out of range. -/
def idx (l : List String) (i : Nat) : Except Err String :=
  match l.get? i with
  | some v => .ok v
  | none => .error .indexError

/-- Decimal value of a digit string. -/
def digitsVal (l : List Char) : Nat :=
  l.foldl (fun n c => 10 * n + (c.toNat - 48)) 0

/-- Python `int(s)` as reachable from the source: succeeds exactly on a
nonempty all-digit string.  (The argument is always a token of the
`wwanStatusInfo` group with whitespace already removed, so its characters are
digits, `.`, uppercase letters or `"`; signs and spaces cannot occur.) -/
def pyInt (s : String) : Except Err Nat :=
  if s.toList ≠ [] ∧ s.toList.all Char.isDigit then .ok (digitsVal s.toList)
  else .error .valueError

/-- Python `==` between a `str` and an `int`: the operands have different
types and no coercion happens, so the comparison is `False` for every pair.
The source compares the string token `devstatus[3]` with the integers `5`
and `6`. -/
def pyEqStrInt (_s : String) (_n : Nat) : Bool := false

/-! ## The decoders translated from the source -/

/-- `M5250._dev_battery`.  Note the source compares the string token with the
integer literals `5` and `6` (see `pyEqStrInt`). -/
def dev_battery (devstatus : List String) : Except Err String :=
  match idx devstatus 3 with
  | .error e => .error e
  | .ok d3 =>
    if pyEqStrInt d3 5 then .ok "charging"
    else if pyEqStrInt d3 6 then .ok "no battery"
    else
      match idx devstatus 9 with
      | .error e => .error e
      | .ok d9 => .ok (d9 ++ "%")

/-- `M5250._wan_link`. -/
def wan_link (wanstatus : List String) : Except Err String :=
  match idx wanstatus 2 with
  | .error e => .error e
  | .ok w2 =>
    if w2 = "32" then .ok "connected"
    else if w2 = "4" then .ok "connecting"
    else if w2 = "0x40" then .ok "disconnecting"
    else .ok "disconnected"

/-- `M5250._wan_network`. -/
def wan_network (wanstatus : List String) : Except Err String :=
  match idx wanstatus 0 with
  | .error e => .error e
  | .ok w0 =>
    if w0 = "0" then .ok "no service"
    else
      match idx wanstatus 3 with
      | .error e => .error e
      | .ok w3 =>
        if w3 = "5" then .ok "UMTS"
        else if w3 = "3" then .ok "UMTS Roaming"
        else .ok "no service"

/-- `M5250._wan_sim`. -/
def wan_sim (wanstatus : List String) : Except Err String :=
  match idx wanstatus 0 with
  | .error e => .error e
  | .ok w0 =>
    if w0 = "0" then .ok "invalid"
    else if w0 = "1" then .ok "ready"
    else if w0 = "2" then .ok "pin required"
    else if w0 = "3" then .ok "puk required"
    else if w0 = "4" then .ok "pin verified"
    else .ok "unknown"

/-- `M5250._wan_int2ip`: `'.'.join(str(x) for x in [ipint & 0xff,
(ipint>>8)&0xff, (ipint>>16)&0xff, (ipint>>24)&0xff])`. -/
def wan_int2ip (ipint : Nat) : String :=
  toString (ipint &&& 0xff) ++ "." ++ toString ((ipint >>> 8) &&& 0xff) ++ "."
    ++ toString ((ipint >>> 16) &&& 0xff) ++ "." ++ toString ((ipint >>> 24) &&& 0xff)

/-! ## The regular-expression patterns of the source -/

/-- Character class `[0-9\s,]` of the `devStatusDataOnlyInfo` pattern. -/
def devClass (c : Char) : Bool := c.isDigit || pyWS c || c == ','

/-- Character class `[0-9\s,.A-Z\"]` of the `wwanStatusInfo` pattern. -/
def wanClass (c : Char) : Bool :=
  c.isDigit || pyWS c || c == ',' || c == '.' || c.isUpper || c == '"'

/-- Character class `[0-9a-zA-Z\",\s_\-]` of the `wifiStatusInfo` pattern. -/
def wifiClass (c : Char) : Bool :=
  c.isDigit || c.isAlpha || c == '"' || c == ',' || pyWS c || c == '_' || c == '-'

/-- Literal head of the `devStatusDataOnlyInfo` pattern. -/
def devPat : List Char := "var devStatusDataOnlyInfo = new Array(".toList

/-- Literal head of the `wwanStatusInfo` pattern. -/
def wanPat : List Char := "var wwanStatusInfo = new Array(".toList

/-- Literal head of the `wifiStatusInfo` pattern. -/
def wifiPat : List Char := "var wifiStatusInfo = new Array(".toList

/-- Literal head of the `session_id` pattern. -/
def sessPat : List Char := "var session_id = \"".toList

/-- `re.search('var devStatusDataOnlyInfo = new Array\(([0-9\s,]*)\);', body)`,
returning the capture group. -/
def devSearch (body : String) : Option (List Char) :=
  searchCCS devPat devClass [')', ';'] body.toList

/-- `re.search('var wwanStatusInfo = new Array\(([0-9\s,.A-Z\"]*)\);', body)`. -/
def wanSearch (body : String) : Option (List Char) :=
  searchCCS wanPat wanClass [')', ';'] body.toList

/-- `re.search('var wifiStatusInfo = new Array\(([0-9a-zA-Z\",\s_\-]*)\);', body)`. -/
def wifiSearch (body : String) : Option (List Char) :=
  searchCCS wifiPat wifiClass [')', ';'] body.toList

/-- `re.search('var session_id = "(\d+)"', body)`; the group is `\d+`, at
least one digit. -/
def sessSearch (body : String) : Option (List Char) :=
  searchPlus sessPat Char.isDigit ['"'] body.toList

/-! ## The stateful operations -/

/-- The `self.data` dictionary, read through string keys. -/
abbrev Store := String → Option String

/-- A freshly constructed client's empty `self.data`. -/
def emptyStore : Store := fun _ => none

/-- `self.data[k] = v`. -/
def setK (st : Store) (k v : String) : Store :=
  fun q => if q = k then some v else st q

/-- An HTTP response as the client sees it: `getcode()` and `read()`. -/
structure Http where
  status : Nat
  body : String

/-- Outcome of one fetch-and-decode operation: the raised error if any, the
`self.data` dictionary afterwards, and whether a network request was made. -/
@[ext]
structure OpResult where
  result : Except Err Unit
  data : Store
  requested : Bool

/-- One `self.data['key'] = expr` statement: the key, and the evaluation of
the right-hand side (which may raise). -/
abbrev Step := String × Except Err String

/-- Run the assignment statements in order, stopping at the first raised
error; assignments already made stay in the dictionary. -/
def execSteps : List Step → Store → Except Err Unit × Store
  | [], st => (.ok (), st)
  | (k, v) :: rest, st =>
    match v with
    | .ok s => execSteps rest (setK st k s)
    | .error e => (.error e, st)

/-- The error outcome of a statement list, ignoring the dictionary. -/
def stepsResult : List Step → Except Err Unit
  | [] => .ok ()
  | (_, .ok _) :: rest => stepsResult rest
  | (_, .error e) :: _ => .error e

/-- The assignments that actually happen: the longest prefix of successful
statements. -/
def okAssigns : List Step → List (String × String)
  | [] => []
  | (k, .ok v) :: rest => (k, v) :: okAssigns rest
  | (_, .error _) :: _ => []

/-- Apply a list of assignments to the dictionary, in order. -/
def applyAssigns : List (String × String) → Store → Store
  | [], st => st
  | (k, v) :: rest, st => applyAssigns rest (setK st k v)

/-- The last binding of a key in an assignment list. -/
def assocLast : List (String × String) → String → Option String
  | [], _ => none
  | (k, v) :: rest, q =>
    match assocLast rest q with
    | some w => some w
    | none => if q = k then some v else none

/-- The six `self.data[...] = ...` statements of `get_device_data`, in source
order. -/
def deviceSteps (dev : List String) : List Step :=
  [ ("battery", dev_battery dev),
    ("sdcard", idx dev 4),
    ("signal",
      match idx dev 7 with
      | .error e => .error e
      | .ok v => .ok (v ++ "%")),
    ("wan",
      match idx dev 2 with
      | .error e => .error e
      | .ok v => .ok (if v = "32" then "0" else "1")),
    ("sms",
      match idx dev 0 with
      | .error e => .error e
      | .ok v => .ok (if v = "0" then "none" else "unread")),
    ("wifi", idx dev 5) ]

/-- `self.data[...] = M5250._wan_int2ip(int(self.wan[i]))`: subscript first,
then `int()`, then the conversion. -/
def ipStep (wan : List String) (i : Nat) : Except Err String :=
  match idx wan i with
  | .error e => .error e
  | .ok v =>
    match pyInt v with
    | .error e => .error e
    | .ok n => .ok (wan_int2ip n)

/-- The fifteen `self.data[...] = ...` statements of `get_link_data`, in
source order. -/
def linkSteps (wan wifi : List String) : List Step :=
  [ ("wifi_ssid",
      match idx wifi 3 with
      | .error e => .error e
      | .ok v => .ok (pySlice1m1 v)),
    ("wifi_clients", idx wifi 0),
    ("wifi_channel",
      match idx wifi 1 with
      | .error e => .error e
      | .ok v => .ok (if v = "0" then "auto" else v)),
    ("wifi_security",
      match idx wifi 2 with
      | .error e => .error e
      | .ok v => .ok (if v = "0" then "none" else "wpa12psk")),
    ("wan_link", wan_link wan),
    ("wan_network", wan_network wan),
    ("wan_sim", wan_sim wan),
    ("rx", idx wan 19),
    ("tx", idx wan 20),
    ("total_data", idx wan 18),
    ("duration_sec", idx wan 8),
    ("total_duration", idx wan 13),
    ("ip", ipStep wan 14),
    ("dns1", ipStep wan 15),
    ("dns2", ipStep wan 16) ]

/-- `M5250.get_device_data`, with the HTTP transport abstracted as the
response the device would return; `requested` records whether the network
call was reached. -/
def get_device_data (session_id : String) (resp : Http) (st : Store) : OpResult :=
  if session_id = "0" then ⟨.error .authError, st, false⟩
  else if resp.status ≠ 200 then ⟨.error (.transportError resp.status), st, true⟩
  else
    match devSearch resp.body with
    | none => ⟨.error .parseError, st, true⟩
    | some g =>
      let r := execSteps (deviceSteps (tokensOf g)) st
      ⟨r.1, r.2, true⟩

/-- `M5250.get_link_data`, same conventions as `get_device_data`. -/
def get_link_data (session_id : String) (resp : Http) (st : Store) : OpResult :=
  if session_id = "0" then ⟨.error .authError, st, false⟩
  else if resp.status ≠ 200 then ⟨.error (.transportError resp.status), st, true⟩
  else
    match wanSearch resp.body, wifiSearch resp.body with
    | some gw, some gf =>
      let r := execSteps (linkSteps (tokensOf gw) (tokensOf gf)) st
      ⟨r.1, r.2, true⟩
    | _, _ => ⟨.error .parseError, st, true⟩

/-- `M5250.authorize`, from the HTTP response on: check the status, search the
body for `var session_id = "(\d+)"`, reject a missing pattern and the
sentinel `"0"`, otherwise adopt the extracted identifier. -/
def authorize (resp : Http) : Except Err String :=
  if resp.status ≠ 200 then .error (.transportError resp.status)
  else
    match sessSearch resp.body with
    | none => .error .authError
    | some g =>
      if g.asString = "0" then .error .authError
      else .ok g.asString

/-! ## Spec-side definition for claim C8 -/

/-- Follows the spec's words, for comparison with the code's
`self.wifi[3][1:-1]`: the `wifi[3]` token "with its surrounding quote
characters stripped (and only the quote characters removed)". -/
def stripSurroundingQuotes (s : String) : String :=
  let l := s.toList
  let l1 := if l.head? = some '"' then l.drop 1 else l
  let l2 := if l1.getLast? = some '"' then l1.dropLast else l1
  l2.asString

/-! ## Concrete response bodies used in the claims -/

/-- Device-status body carrying the spec's example field sequence
`[0,0,32,5,1,1,0,87,0,0]`. -/
def devBodyExample : String :=
  "var devStatusDataOnlyInfo = new Array(0,0,32,5,1,1,0,87,0,0);"

/-- Device-status body whose array has only two tokens. -/
def devBodyShort : String :=
  "var devStatusDataOnlyInfo = new Array(1,2);"

/-- Well-formed link-status body: 21 wan tokens and 4 wifi tokens, with
numeric fields at wan indices 14..16. -/
def linkBodyGood : String :=
  "var wwanStatusInfo = new Array(1,1,32,5,4,5,6,7,8,9,10,11,12,13,16885952,0,4294967295,17,18,19,20);\nvar wifiStatusInfo = new Array(3,0,0,\"Net\");"

/-- Link-status body whose wan array stops at index 19 (20 tokens), so the
`tx` assignment is the first to fail. -/
def linkBodyTrunc : String :=
  "var wwanStatusInfo = new Array(1,1,32,5,4,5,6,7,8,9,10,11,12,13,14,15,16,17,18,19);\nvar wifiStatusInfo = new Array(3,0,0,\"Net\");"

/-- Link-status body whose wan array has only two tokens. -/
def linkBodyShort : String :=
  "var wwanStatusInfo = new Array(1,2);\nvar wifiStatusInfo = new Array(3,0,0,\"Net\");"

/-- Link-status body whose `wifi[3]` token `abc` carries no quotes. -/
def linkBodyNoQuote : String :=
  "var wwanStatusInfo = new Array(1,1,32,5,4,5,6,7,8,9,10,11,12,13,16885952,0,4294967295,17,18,19,20);\nvar wifiStatusInfo = new Array(3,0,0,abc);"

/-- The capture group of `wanSearch linkBodyGood`. -/
def wanGroupGood : List Char :=
  "1,1,32,5,4,5,6,7,8,9,10,11,12,13,16885952,0,4294967295,17,18,19,20".toList

/-- The capture group of `wifiSearch linkBodyGood`. -/
def wifiGroupGood : List Char := "3,0,0,\"Net\"".toList

/-- The capture group of `devSearch devBodyExample`. -/
def devGroupExample : List Char := "0,0,32,5,1,1,0,87,0,0".toList

/-- The literal head of the `devStatusDataOnlyInfo` pattern without its final
parenthesis (`devPat = devPat0 ++ ['(']`). -/
def devPat0 : List Char := "var devStatusDataOnlyInfo = new Array".toList

/-- A device-status body whose `devStatusDataOnlyInfo` array literal has
content `c`. -/
def mkDevBody (c : List Char) : String := (devPat ++ (c ++ [')', ';'])).asString

/-! ## Basic lemmas -/

theorem stripPre_append (p l : List Char) : stripPre p (p ++ l) = some l := by
  induction p with
  | nil => rfl
  | cons x xs ih => simp [stripPre, ih]

theorem stripPre_eq_append {p : List Char} :
    ∀ {l r : List Char}, stripPre p l = some r → l = p ++ r := by
  induction p with
  | nil =>
    intro l r h
    cases h
    rfl
  | cons x xs ih =>
    intro l r h
    cases l with
    | nil => cases h
    | cons y ys =>
      by_cases hy : y = x
      · subst hy
        simp only [stripPre, if_pos rfl] at h
        simpa using congrArg (List.cons y) (ih h)
      · simp [stripPre, hy] at h

theorem idx_err {l : List String} {i : Nat} (h : l.length ≤ i) :
    idx l i = .error .indexError := by
  unfold idx
  rw [List.get?_eq_none.mpr h]

theorem idx_ok {l : List String} {i : Nat} (h : i < l.length) :
    idx l i = .ok l[i] := by
  unfold idx
  rw [List.get?_eq_getElem?, List.getElem?_eq_getElem h]

theorem idx_ok_lt {l : List String} {i : Nat} {v : String} (h : idx l i = .ok v) :
    i < l.length := by
  by_contra hlt
  rw [idx_err (Nat.le_of_not_lt hlt)] at h
  cases h

theorem execSteps_fst (steps : List Step) (st : Store) :
    (execSteps steps st).1 = stepsResult steps := by
  induction steps generalizing st with
  | nil => rfl
  | cons s rest ih =>
    obtain ⟨k, v⟩ := s
    cases v with
    | ok w => simp [execSteps, stepsResult, ih]
    | error e => rfl

theorem execSteps_snd (steps : List Step) (st : Store) :
    (execSteps steps st).2 = applyAssigns (okAssigns steps) st := by
  induction steps generalizing st with
  | nil => rfl
  | cons s rest ih =>
    obtain ⟨k, v⟩ := s
    cases v with
    | ok w => simp [execSteps, okAssigns, applyAssigns, ih]
    | error e => rfl

theorem applyAssigns_apply (l : List (String × String)) (st : Store) (q : String) :
    applyAssigns l st q =
      match assocLast l q with
      | some v => some v
      | none => st q := by
  induction l generalizing st with
  | nil => rfl
  | cons a rest ih =>
    obtain ⟨k, v⟩ := a
    simp only [applyAssigns]
    rw [ih]
    cases h : assocLast rest q with
    | some w => simp [assocLast, h]
    | none =>
      by_cases hq : q = k
      · subst hq
        simp [assocLast, h, setK]
      · simp [assocLast, h, setK, hq]

theorem applyAssigns_idem (l : List (String × String)) (st : Store) :
    applyAssigns l (applyAssigns l st) = applyAssigns l st := by
  funext q
  rw [applyAssigns_apply, applyAssigns_apply]
  cases h : assocLast l q <;> rfl

theorem assocLast_of_not_mem {l : List (String × String)} {q : String}
    (h : q ∉ l.map Prod.fst) : assocLast l q = none := by
  induction l with
  | nil => rfl
  | cons a rest ih =>
    obtain ⟨k, v⟩ := a
    simp only [List.map_cons, List.mem_cons] at h
    push_neg at h
    simp only [assocLast, ih h.2]
    rw [if_neg h.1]

theorem okAssigns_keys_sub {steps : List Step} {q : String}
    (h : q ∈ (okAssigns steps).map Prod.fst) : q ∈ steps.map Prod.fst := by
  induction steps with
  | nil => exact h
  | cons s rest ih =>
    obtain ⟨k, v⟩ := s
    cases v with
    | ok w =>
      simp only [okAssigns, List.map_cons, List.mem_cons] at h ⊢
      rcases h with h | h
      · exact Or.inl h
      · exact Or.inr (ih h)
    | error e =>
      simp [okAssigns] at h

/-! ## Shape lemmas for the stateful operations -/

theorem get_device_data_sid0 (resp : Http) (st : Store) :
    get_device_data "0" resp st = ⟨.error .authError, st, false⟩ := rfl

theorem get_device_data_badStatus {sid : String} (h : sid ≠ "0") {resp : Http}
    (hs : resp.status ≠ 200) (st : Store) :
    get_device_data sid resp st = ⟨.error (.transportError resp.status), st, true⟩ := by
  unfold get_device_data
  rw [if_neg h, if_pos hs]

theorem get_device_data_noMatch {sid : String} (h : sid ≠ "0") {resp : Http}
    (hs : resp.status = 200) (hg : devSearch resp.body = none) (st : Store) :
    get_device_data sid resp st = ⟨.error .parseError, st, true⟩ := by
  unfold get_device_data
  rw [if_neg h, if_neg (by simp [hs]), hg]

theorem get_device_data_found {sid : String} (h : sid ≠ "0") {resp : Http}
    (hs : resp.status = 200) {g : List Char} (hg : devSearch resp.body = some g)
    (st : Store) :
    get_device_data sid resp st =
      ⟨stepsResult (deviceSteps (tokensOf g)),
       applyAssigns (okAssigns (deviceSteps (tokensOf g))) st, true⟩ := by
  unfold get_device_data
  rw [if_neg h, if_neg (by simp [hs]), hg]
  simp only [execSteps_fst, execSteps_snd]

theorem get_link_data_sid0 (resp : Http) (st : Store) :
    get_link_data "0" resp st = ⟨.error .authError, st, false⟩ := rfl

theorem get_link_data_badStatus {sid : String} (h : sid ≠ "0") {resp : Http}
    (hs : resp.status ≠ 200) (st : Store) :
    get_link_data sid resp st = ⟨.error (.transportError resp.status), st, true⟩ := by
  unfold get_link_data
  rw [if_neg h, if_pos hs]

theorem get_link_data_noMatch {sid : String} (h : sid ≠ "0") {resp : Http}
    (hs : resp.status = 200)
    (hg : wanSearch resp.body = none ∨ wifiSearch resp.body = none) (st : Store) :
    get_link_data sid resp st = ⟨.error .parseError, st, true⟩ := by
  unfold get_link_data
  rw [if_neg h, if_neg (by simp [hs])]
  rcases hg with hg | hg
  · rw [hg]
  · cases hw : wanSearch resp.body with
    | none => rfl
    | some gw => rw [hg]

theorem get_link_data_found {sid : String} (h : sid ≠ "0") {resp : Http}
    (hs : resp.status = 200) {gw gf : List Char} (hw : wanSearch resp.body = some gw)
    (hf : wifiSearch resp.body = some gf) (st : Store) :
    get_link_data sid resp st =
      ⟨stepsResult (linkSteps (tokensOf gw) (tokensOf gf)),
       applyAssigns (okAssigns (linkSteps (tokensOf gw) (tokensOf gf))) st, true⟩ := by
  unfold get_link_data
  rw [if_neg h, if_neg (by simp [hs]), hw, hf]
  simp only [execSteps_fst, execSteps_snd]

/-! ## Decoder lemmas -/

theorem dev_battery_err {dev : List String} (h : dev.length ≤ 9) :
    dev_battery dev = .error .indexError := by
  by_cases h3 : dev.length ≤ 3
  · simp only [dev_battery, idx_err h3]
  · simp only [dev_battery, idx_ok (Nat.lt_of_not_le h3), idx_err h, pyEqStrInt,
      Bool.false_eq_true, if_false]

theorem dev_battery_ok_len {dev : List String} {v : String}
    (h : dev_battery dev = .ok v) : 10 ≤ dev.length := by
  unfold dev_battery at h
  cases h3 : idx dev 3 with
  | error e => rw [h3] at h; cases h
  | ok d3 =>
    rw [h3] at h
    simp only [pyEqStrInt, Bool.false_eq_true, if_false] at h
    cases h9 : idx dev 9 with
    | error e => rw [h9] at h; cases h
    | ok d9 => exact idx_ok_lt h9

theorem wan_link_err {wan : List String} (h : wan.length ≤ 2) :
    wan_link wan = .error .indexError := by
  simp only [wan_link, idx_err h]

theorem wan_link_ok {wan : List String} (h : 2 < wan.length) :
    ∃ v, wan_link wan = .ok v := by
  simp only [wan_link, idx_ok h]
  split_ifs <;> exact ⟨_, rfl⟩

theorem wan_network_err_or_ok {wan : List String} (h : 0 < wan.length) :
    wan_network wan = .error .indexError ∨ ∃ v, wan_network wan = .ok v := by
  simp only [wan_network, idx_ok h]
  by_cases h0 : wan[0] = "0"
  · right
    exact ⟨"no service", by simp [h0]⟩
  · by_cases h3 : wan.length ≤ 3
    · left
      simp [h0, idx_err h3]
    · right
      simp only [h0, if_false, idx_ok (Nat.lt_of_not_le h3)]
      split_ifs <;> exact ⟨_, rfl⟩

theorem wan_sim_ok {wan : List String} (h : 0 < wan.length) :
    ∃ v, wan_sim wan = .ok v := by
  simp only [wan_sim, idx_ok h]
  split_ifs <;> exact ⟨_, rfl⟩

theorem deviceSteps_result_short {dev : List String} (h : dev.length ≤ 9) :
    stepsResult (deviceSteps dev) = .error .indexError := by
  simp only [deviceSteps, stepsResult, dev_battery_err h]

theorem deviceSteps_result_long {dev : List String} (h : 10 ≤ dev.length) :
    ∃ u, stepsResult (deviceSteps dev) = .ok u := by
  have h3 : 3 < dev.length := by omega
  have h9 : 9 < dev.length := by omega
  have h4 : 4 < dev.length := by omega
  have h7 : 7 < dev.length := by omega
  have h2 : 2 < dev.length := by omega
  have h0 : 0 < dev.length := by omega
  have h5 : 5 < dev.length := by omega
  simp only [deviceSteps, stepsResult, dev_battery, idx_ok h3, idx_ok h9, idx_ok h4,
    idx_ok h7, idx_ok h2, idx_ok h0, idx_ok h5, pyEqStrInt, Bool.false_eq_true, if_false]
  exact ⟨(), trivial⟩

theorem linkSteps_result_short {wan wifi : List String}
    (h : wifi.length ≤ 3 ∨ wan.length ≤ 20) :
    stepsResult (linkSteps wan wifi) = .error .indexError := by
  by_cases hf : wifi.length ≤ 3
  · simp only [linkSteps, stepsResult, idx_err hf]
  · have h20 : wan.length ≤ 20 := by
      rcases h with h | h
      · exact absurd h hf
      · exact h
    have hf3 : 3 < wifi.length := Nat.lt_of_not_le hf
    have hf0 : 0 < wifi.length := by omega
    have hf1 : 1 < wifi.length := by omega
    have hf2 : 2 < wifi.length := by omega
    simp only [linkSteps, stepsResult, idx_ok hf3, idx_ok hf0, idx_ok hf1, idx_ok hf2]
    by_cases hw2 : wan.length ≤ 2
    · simp only [stepsResult, wan_link_err hw2]
    · obtain ⟨v5, h5⟩ := wan_link_ok (Nat.lt_of_not_le hw2)
      have hw0 : 0 < wan.length := by omega
      rcases wan_network_err_or_ok hw0 with h6 | ⟨v6, h6⟩
      · simp only [stepsResult, h5, h6]
      · obtain ⟨v7, h7⟩ := wan_sim_ok hw0
        by_cases hw19 : wan.length ≤ 19
        · simp only [stepsResult, h5, h6, h7, idx_err hw19]
        · simp only [stepsResult, h5, h6, h7, idx_ok (Nat.lt_of_not_le hw19), idx_err h20]

/-! ## Search lemmas -/

theorem matchAt_group {pat : List Char} {cls : Char → Bool} {suf s g : List Char}
    (hm : matchAt pat cls suf s = some g) : ∀ c ∈ g, cls c = true := by
  unfold matchAt at hm
  cases h1 : stripPre pat s with
  | none => rw [h1] at hm; cases hm
  | some rest =>
    simp only [h1] at hm
    cases h2 : stripPre suf (rest.dropWhile cls) with
    | none => simp only [h2] at hm; cases hm
    | some r2 =>
      simp only [h2] at hm
      cases hm
      intro c hc
      exact List.mem_takeWhile_imp hc

theorem searchCCS_some_suffix {pat : List Char} {cls : Char → Bool} {suf : List Char} :
    ∀ {l g : List Char}, searchCCS pat cls suf l = some g →
      ∃ s, s <:+ l ∧ matchAt pat cls suf s = some g := by
  intro l
  induction l with
  | nil =>
    intro g h
    exact ⟨[], List.suffix_refl [], h⟩
  | cons x xs ih =>
    intro g h
    unfold searchCCS at h
    cases hm : matchAt pat cls suf (x :: xs) with
    | some g2 =>
      simp only [hm] at h
      cases h
      exact ⟨x :: xs, List.suffix_refl _, hm⟩
    | none =>
      simp only [hm] at h
      obtain ⟨s, hs, h2⟩ := ih h
      exact ⟨s, hs.trans (List.suffix_cons x xs), h2⟩

theorem splitComma_mem : ∀ {l p : List Char}, p ∈ splitComma l →
    ∀ c ∈ p, c ∈ l ∧ c ≠ ',' := by
  intro l
  induction l with
  | nil =>
    intro p hp c hc
    simp only [splitComma, List.mem_singleton] at hp
    subst hp
    cases hc
  | cons x xs ih =>
    intro p hp c hc
    by_cases hx : x = ','
    · simp only [splitComma, if_pos hx] at hp
      rcases List.mem_cons.mp hp with rfl | hp2
      · cases hc
      · obtain ⟨hin, hnc⟩ := ih hp2 c hc
        exact ⟨List.mem_cons_of_mem x hin, hnc⟩
    · simp only [splitComma, if_neg hx] at hp
      cases hsp : splitComma xs with
      | nil =>
        simp only [hsp, List.mem_singleton] at hp
        subst hp
        simp only [List.mem_singleton] at hc
        subst hc
        exact ⟨List.mem_cons_self c xs, hx⟩
      | cons hd tl =>
        simp only [hsp] at hp
        rcases List.mem_cons.mp hp with rfl | hp2
        · rcases List.mem_cons.mp hc with rfl | hc2
          · exact ⟨List.mem_cons_self c xs, hx⟩
          · have hh := ih (p := hd) (by rw [hsp]; exact List.mem_cons_self hd tl) c hc2
            exact ⟨List.mem_cons_of_mem x hh.1, hh.2⟩
        · have hh := ih (p := p) (by rw [hsp]; exact List.mem_cons_of_mem hd hp2) c hc
          exact ⟨List.mem_cons_of_mem x hh.1, hh.2⟩

theorem tokensOf_digits {g : List Char} (hcls : ∀ c ∈ g, devClass c = true) :
    ∀ t ∈ tokensOf g, ∀ ch ∈ t.toList, ch.isDigit = true := by
  intro t ht ch hch
  unfold tokensOf at ht
  obtain ⟨p, hp, rfl⟩ := List.mem_map.mp ht
  have hch2 : ch ∈ p := hch
  obtain ⟨hin, hnc⟩ := splitComma_mem hp ch hch2
  have hg : ch ∈ g := (List.mem_filter.mp hin).1
  have hws : pyWS ch = false := by
    have := (List.mem_filter.mp hin).2
    simpa using this
  have hne : (ch == ',') = false := by simp [hnc]
  have hcl := hcls ch hg
  unfold devClass at hcl
  rw [hws, hne] at hcl
  simpa using hcl

theorem takeWhile_append_all {p : Char → Bool} :
    ∀ {a l : List Char}, (∀ x ∈ a, p x = true) →
      List.takeWhile p (a ++ l) = a ++ List.takeWhile p l := by
  intro a
  induction a with
  | nil => intro l _; rfl
  | cons x xs ih =>
    intro l hall
    have hx : p x = true := hall x (List.mem_cons_self x xs)
    simp [List.takeWhile_cons, hx, ih (fun y hy => hall y (List.mem_cons_of_mem x hy))]

theorem dropWhile_append_bad {p : Char → Bool} :
    ∀ {a : List Char} (l : List Char), (∃ x ∈ a, p x = false) →
      List.dropWhile p (a ++ l) = List.dropWhile p a ++ l := by
  intro a
  induction a with
  | nil =>
    intro l h
    obtain ⟨x, hx, _⟩ := h
    cases hx
  | cons y ys ih =>
    intro l h
    cases hy : p y with
    | false => simp [List.dropWhile_cons, hy]
    | true =>
      have hys : ∃ x ∈ ys, p x = false := by
        obtain ⟨x, hx, hpx⟩ := h
        rcases List.mem_cons.mp hx with rfl | hx2
        · rw [hy] at hpx; cases hpx
        · exact ⟨x, hx2, hpx⟩
      simp [List.dropWhile_cons, hy, ih l hys]

theorem dropWhile_head_bad {p : Char → Bool} :
    ∀ {a : List Char}, (∃ x ∈ a, p x = false) →
      ∃ y ys, List.dropWhile p a = y :: ys ∧ p y = false ∧ y ∈ a := by
  intro a
  induction a with
  | nil =>
    intro h
    obtain ⟨x, hx, _⟩ := h
    cases hx
  | cons z zs ih =>
    intro h
    cases hz : p z with
    | false =>
      exact ⟨z, zs, by simp [List.dropWhile_cons, hz], hz, List.mem_cons_self z zs⟩
    | true =>
      have hzs : ∃ x ∈ zs, p x = false := by
        obtain ⟨x, hx, hpx⟩ := h
        rcases List.mem_cons.mp hx with rfl | hx2
        · rw [hz] at hpx; cases hpx
        · exact ⟨x, hx2, hpx⟩
      obtain ⟨y, ys, h1, h2, h3⟩ := ih hzs
      exact ⟨y, ys, by simp [List.dropWhile_cons, hz, h1], h2, List.mem_cons_of_mem z h3⟩

theorem matchAt_dev_none {c : List Char} (hbad : ∃ x ∈ c, devClass x = false)
    (hnc : ')' ∉ c) :
    matchAt devPat devClass [')', ';'] (devPat ++ (c ++ [')', ';'])) = none := by
  unfold matchAt
  simp only [stripPre_append]
  rw [dropWhile_append_bad _ hbad]
  obtain ⟨y, ys, h1, h2, h3⟩ := dropWhile_head_bad hbad
  rw [h1]
  have hy : y ≠ ')' := fun he => hnc (he ▸ h3)
  simp [stripPre, hy]

theorem append_match_uniq {u q r w : List Char} (hq : '(' ∉ q) (hw : '(' ∉ w)
    (h : u ++ (q ++ '(' :: r) = q ++ '(' :: w) : u = [] := by
  have h0q : List.count '(' q = 0 := List.count_eq_zero.mpr hq
  have h0w : List.count '(' w = 0 := List.count_eq_zero.mpr hw
  have hcnt := congrArg (fun l => List.count '(' l) h
  simp only [List.count_append, List.count_cons_self, h0q, h0w] at hcnt
  have hcu2 : '(' ∉ u := by
    apply List.count_eq_zero.mp
    omega
  have hall1 : ∀ x ∈ u ++ q, (!(x == '(')) = true := by
    intro x hx
    have hxn : x ≠ '(' := by
      rcases List.mem_append.mp hx with hx2 | hx2
      · exact fun he => hcu2 (he ▸ hx2)
      · exact fun he => hq (he ▸ hx2)
    simp [hxn]
  have hall2 : ∀ x ∈ q, (!(x == '(')) = true := by
    intro x hx
    have hxn : x ≠ '(' := fun he => hq (he ▸ hx)
    simp [hxn]
  have htw := congrArg (List.takeWhile (fun x => !(x == '('))) h
  rw [← List.append_assoc] at htw
  rw [takeWhile_append_all hall1, takeWhile_append_all hall2] at htw
  simp only [List.takeWhile_cons, beq_self_eq_true, Bool.not_true, Bool.false_eq_true,
    if_false, List.append_nil] at htw
  have hlen := congrArg List.length htw
  rw [List.length_append] at hlen
  have hzero : u.length = 0 := by omega
  exact List.eq_nil_of_length_eq_zero hzero

theorem devSearch_mkDevBody_none {c : List Char} (hbad : ∃ x ∈ c, devClass x = false)
    (hp : '(' ∉ c) (hc : ')' ∉ c) :
    devSearch (mkDevBody c) = none := by
  unfold devSearch
  have hlist : (mkDevBody c).toList = devPat ++ (c ++ [')', ';']) := rfl
  rw [hlist]
  cases hres : searchCCS devPat devClass [')', ';'] (devPat ++ (c ++ [')', ';'])) with
  | none => rfl
  | some g =>
    exfalso
    obtain ⟨s, hs, hm⟩ := searchCCS_some_suffix hres
    have hsp : ∃ r, stripPre devPat s = some r := by
      unfold matchAt at hm
      cases hq : stripPre devPat s with
      | none => rw [hq] at hm; cases hm
      | some r => exact ⟨r, rfl⟩
    obtain ⟨r, hr⟩ := hsp
    have hseq : s = devPat ++ r := stripPre_eq_append hr
    obtain ⟨u, hu⟩ := hs
    have hdp : devPat = devPat0 ++ ['('] := by decide
    have hwnp : '(' ∉ c ++ [')', ';'] := by
      intro hmem
      rcases List.mem_append.mp hmem with hmem | hmem
      · exact hp hmem
      · simp at hmem
    have hq0 : '(' ∉ devPat0 := by decide
    have hu2 : u ++ (devPat0 ++ '(' :: r) = devPat0 ++ '(' :: (c ++ [')', ';']) := by
      have := hu
      rw [hseq, hdp] at this
      simpa [List.append_assoc] using this
    have hunil : u = [] := append_match_uniq hq0 hwnp hu2
    subst hunil
    rw [List.nil_append] at hu
    rw [hu] at hseq
    have hnone := matchAt_dev_none hbad hc
    rw [hu, hnone] at hm
    cases hm

/-! ## Claim theorems -/

/-- C1: the spec says a battery field value 5 at index 3 decodes to
"charging" (6 to "no battery"), and that the example field sequence
`[0,0,32,5,1,1,0,87,0,0]` yields battery = "charging".  The source compares
the string token `devstatus[3]` with the integer literals 5 and 6, a
comparison that is false for every operand pair in Python, so both branches
are dead and the battery field always decodes to token 9 plus "%": on the
spec's own example the code produces battery = "0%", while the other five
fields come out exactly as the spec says. -/
theorem c1_battery_string_int_comparison :
    (get_device_data "1" ⟨200, devBodyExample⟩ emptyStore).result = .ok () ∧
    (get_device_data "1" ⟨200, devBodyExample⟩ emptyStore).data "battery" = some "0%" ∧
    some "0%" ≠ some ("charging" : String) ∧
    (get_device_data "1" ⟨200, devBodyExample⟩ emptyStore).data "sdcard" = some "1" ∧
    (get_device_data "1" ⟨200, devBodyExample⟩ emptyStore).data "signal" = some "87%" ∧
    (get_device_data "1" ⟨200, devBodyExample⟩ emptyStore).data "wan" = some "0" ∧
    (get_device_data "1" ⟨200, devBodyExample⟩ emptyStore).data "sms" = some "none" ∧
    (get_device_data "1" ⟨200, devBodyExample⟩ emptyStore).data "wifi" = some "1" := by
  decide

/-- C2 counterexample: the claim states that 16885952 decodes to
"128.44.1.1"; the code decodes it to "192.168.1.1" (the spec's decimal value
does not match its own hex annotation 0x01012C80 either). -/
theorem c2_counterexample_16885952 :
    wan_int2ip 16885952 = "192.168.1.1" ∧ wan_int2ip 16885952 ≠ "128.44.1.1" := by
  decide

/-- C2 amended: the conversion is little-endian byte extraction exactly as
claimed (byte0 = value mod 256, byte1 = value / 2^8 mod 256, byte2 =
value / 2^16 mod 256, byte3 = value / 2^24 mod 256, joined with dots), and it
maps 0 to "0.0.0.0" and 4294967295 to "255.255.255.255"; the example value
16885952 however maps to "192.168.1.1" ("128.44.1.1" is the image of
16854144). -/
theorem c2_int2ip_little_endian (n : Nat) :
    wan_int2ip n =
      toString (n % 256) ++ "." ++ toString (n / 2 ^ 8 % 256) ++ "." ++
        toString (n / 2 ^ 16 % 256) ++ "." ++ toString (n / 2 ^ 24 % 256) ∧
    wan_int2ip 16885952 = "192.168.1.1" ∧ wan_int2ip 0 = "0.0.0.0" ∧
    wan_int2ip 4294967295 = "255.255.255.255" ∧ wan_int2ip 16854144 = "128.44.1.1" := by
  refine ⟨?_, by decide, by decide, by decide, by decide⟩
  have hb : ∀ m : Nat, m &&& 0xff = m % 256 := by
    intro m
    have h := Nat.and_pow_two_sub_one_eq_mod m 8
    simpa using h
  unfold wan_int2ip
  rw [hb n, hb (n >>> 8), hb (n >>> 16), hb (n >>> 24), Nat.shiftRight_eq_div_pow,
    Nat.shiftRight_eq_div_pow, Nat.shiftRight_eq_div_pow]

/-- C3 counterexample: on a body whose device array has only two tokens the
device decoder fails with IndexError (Python list subscripting), not with the
ParseError (`ValueError('Cannot parse page output.')`) the claim requires;
the link decoder does the same on a body whose wan array has two tokens. -/
theorem c3_counterexample_short_arrays :
    (get_device_data "1" ⟨200, devBodyShort⟩ emptyStore).result = .error .indexError ∧
    (get_device_data "1" ⟨200, devBodyShort⟩ emptyStore).result ≠ .error .parseError ∧
    (get_link_data "1" ⟨200, linkBodyShort⟩ emptyStore).result = .error .indexError ∧
    (get_link_data "1" ⟨200, linkBodyShort⟩ emptyStore).result ≠ .error .parseError := by
  decide

/-- C3 amended: for every body in which the expected array literal is found
but the comma-split token sequence has fewer tokens than the decoder needs
(device: fewer than 10, so index 9 is unreachable; link: fewer than 4 wifi
tokens or fewer than 21 wan tokens), the decoder fails with a Python
index-out-of-range error (IndexError), not with ParseError. -/
theorem c3_amended_short_tokens_indexError (sid : String) (resp : Http) (st : Store)
    (h0 : sid ≠ "0") (hs : resp.status = 200) :
    (∀ g, devSearch resp.body = some g → (tokensOf g).length ≤ 9 →
      (get_device_data sid resp st).result = .error .indexError) ∧
    (∀ gw gf, wanSearch resp.body = some gw → wifiSearch resp.body = some gf →
      ((tokensOf gf).length ≤ 3 ∨ (tokensOf gw).length ≤ 20) →
      (get_link_data sid resp st).result = .error .indexError) := by
  constructor
  · intro g hg hlen
    rw [get_device_data_found h0 hs hg st]
    exact deviceSteps_result_short hlen
  · intro gw gf hw hf hlen
    rw [get_link_data_found h0 hs hw hf st]
    exact linkSteps_result_short hlen

/-- C3 witness: the amended theorem applied to the two-token device body. -/
theorem c3_amended_short_tokens_indexError_witness :
    (get_device_data "1" ⟨200, devBodyShort⟩ emptyStore).result = .error .indexError :=
  (c3_amended_short_tokens_indexError "1" ⟨200, devBodyShort⟩ emptyStore
    (by decide) rfl).1 ("1,2".toList) (by decide) (by decide)

/-- C4 counterexample: on a link body whose wan array stops after 20 tokens
the decode fails (IndexError at the `tx` assignment), yet `rx` and the wifi
fields were already written into the caller-visible `self.data`: the failed
operation leaves a partially populated record. -/
theorem c4_counterexample_partial_record :
    (get_link_data "1" ⟨200, linkBodyTrunc⟩ emptyStore).result = .error .indexError ∧
    (get_link_data "1" ⟨200, linkBodyTrunc⟩ emptyStore).data "rx" = some "19" ∧
    (get_link_data "1" ⟨200, linkBodyTrunc⟩ emptyStore).data "wifi_ssid" = some "Net" ∧
    emptyStore "rx" = none := by
  decide

/-- C4 amended: atomicity holds for the device-status decode — whenever
`get_device_data` fails, the `self.data` dictionary is exactly what it was
before the call (the first assignment, battery, already touches the highest
referenced index 9, so a too-short sequence fails before any write) — but
not for the link decode, which can leave a partially populated record as the
counterexample shows. -/
theorem c4_amended_device_decode_atomic (sid : String) (resp : Http) (st : Store)
    (e : Err) (h : (get_device_data sid resp st).result = .error e) :
    (get_device_data sid resp st).data = st := by
  by_cases h0 : sid = "0"
  · subst h0
    rw [get_device_data_sid0]
  · by_cases hs : resp.status = 200
    · cases hg : devSearch resp.body with
      | none => rw [get_device_data_noMatch h0 hs hg st]
      | some g =>
        simp only [get_device_data_found h0 hs hg] at h ⊢
        cases hbat : dev_battery (tokensOf g) with
        | error e2 => simp only [deviceSteps, hbat, okAssigns, applyAssigns]
        | ok v =>
          exfalso
          obtain ⟨u, hres⟩ := deviceSteps_result_long (dev_battery_ok_len hbat)
          rw [hres] at h
          cases h
    · rw [get_device_data_badStatus h0 hs st]

/-- C4 witness: the amended theorem applied to the failing two-token body. -/
theorem c4_amended_device_decode_atomic_witness :
    (get_device_data "1" ⟨200, devBodyShort⟩ emptyStore).data = emptyStore :=
  c4_amended_device_decode_atomic "1" ⟨200, devBodyShort⟩ emptyStore .indexError
    (by decide)

/-- C5: with the unauthenticated sentinel "0" both fetch operations fail
immediately with AuthError, leave the dictionary untouched and issue no
network request; with any other session identifier the request is issued,
and against a transport answering 200 with the well-formed example bodies
both operations succeed. -/
theorem c5_session_sentinel_guard (sid : String) (resp : Http) (st : Store) :
    (sid = "0" →
      get_device_data sid resp st = ⟨.error .authError, st, false⟩ ∧
      get_link_data sid resp st = ⟨.error .authError, st, false⟩) ∧
    (sid ≠ "0" →
      (get_device_data sid resp st).requested = true ∧
      (get_link_data sid resp st).requested = true ∧
      (get_device_data sid ⟨200, devBodyExample⟩ st).result = .ok () ∧
      (get_link_data sid ⟨200, linkBodyGood⟩ st).result = .ok ()) := by
  constructor
  · intro h
    subst h
    exact ⟨get_device_data_sid0 resp st, get_link_data_sid0 resp st⟩
  · intro h
    refine ⟨?_, ?_, ?_, ?_⟩
    · by_cases hs : resp.status = 200
      · cases hg : devSearch resp.body with
        | none => rw [get_device_data_noMatch h hs hg st]
        | some g => rw [get_device_data_found h hs hg st]
      · rw [get_device_data_badStatus h hs st]
    · by_cases hs : resp.status = 200
      · cases hw : wanSearch resp.body with
        | none => rw [get_link_data_noMatch h hs (Or.inl hw) st]
        | some gw =>
          cases hf : wifiSearch resp.body with
          | none => rw [get_link_data_noMatch h hs (Or.inr hf) st]
          | some gf => rw [get_link_data_found h hs hw hf st]
      · rw [get_link_data_badStatus h hs st]
    · rw [get_device_data_found h rfl
        (show devSearch devBodyExample = some devGroupExample by decide) st]
      show stepsResult (deviceSteps (tokensOf devGroupExample)) = .ok ()
      decide
    · rw [get_link_data_found h rfl
        (show wanSearch linkBodyGood = some wanGroupGood by decide)
        (show wifiSearch linkBodyGood = some wifiGroupGood by decide) st]
      show stepsResult (linkSteps (tokensOf wanGroupGood) (tokensOf wifiGroupGood)) = .ok ()
      decide

/-- C5 witness: the guard at the sentinel and a successful fetch at "5". -/
theorem c5_session_sentinel_guard_witness :
    get_device_data "0" ⟨200, devBodyExample⟩ emptyStore =
      ⟨.error .authError, emptyStore, false⟩ ∧
    (get_device_data "5" ⟨200, devBodyExample⟩ emptyStore).result = .ok () :=
  ⟨((c5_session_sentinel_guard "0" ⟨200, devBodyExample⟩ emptyStore).1 rfl).1,
   (((c5_session_sentinel_guard "5" ⟨200, devBodyExample⟩ emptyStore).2
      (by decide)).2.2).1⟩

/-- C6: authentication against a 200 body lacking the
`var session_id = "<digits>"` pattern fails with AuthError; with the pattern
carrying "0" it fails with AuthError; with "4821" it succeeds and the
session holds "4821". -/
theorem c6_authorize_session (body : String) :
    (sessSearch body = none → authorize ⟨200, body⟩ = .error .authError) ∧
    authorize ⟨200, "var session_id = \"0\"; rest"⟩ = .error .authError ∧
    authorize ⟨200, "var session_id = \"4821\"; rest"⟩ = .ok "4821" := by
  refine ⟨?_, by decide, by decide⟩
  intro h
  have hred : authorize ⟨200, body⟩ =
      match sessSearch body with
      | none => .error .authError
      | some g => if g.asString = "0" then .error .authError else .ok g.asString := rfl
  rw [hred, h]

/-- C6 witness: the missing-pattern case at a concrete body. -/
theorem c6_authorize_session_witness :
    authorize ⟨200, "no pattern here"⟩ = .error .authError :=
  (c6_authorize_session "no pattern here").1 (by decide)

/-- C7: the WAN link mapping on wan[2] is total: "32" yields connected, "4"
connecting, "0x40" disconnecting, and every other string yields
"disconnected" (an `.ok` result, never an exception). -/
theorem c7_wan_link_total (wan : List String) (v : String) (h : wan.get? 2 = some v) :
    (v = "32" → wan_link wan = .ok "connected") ∧
    (v = "4" → wan_link wan = .ok "connecting") ∧
    (v = "0x40" → wan_link wan = .ok "disconnecting") ∧
    (v ≠ "32" → v ≠ "4" → v ≠ "0x40" → wan_link wan = .ok "disconnected") := by
  have hidx : idx wan 2 = .ok v := by
    unfold idx
    rw [h]
  refine ⟨?_, ?_, ?_, ?_⟩
  · intro hv
    simp [wan_link, hidx, hv]
  · intro hv
    simp [wan_link, hidx, hv]
  · intro hv
    simp [wan_link, hidx, hv]
  · intro h1 h2 h3
    simp [wan_link, hidx, h1, h2, h3]

/-- C7 witness: an unknown code maps to "disconnected". -/
theorem c7_wan_link_total_witness :
    wan_link ["a", "b", "anything"] = .ok "disconnected" :=
  (c7_wan_link_total ["a", "b", "anything"] "anything" (by decide)).2.2.2
    (by decide) (by decide) (by decide)

/-- C9: each decode operation is a pure function of the response body:
repeating the operation on the same response reproduces the first run's
outcome exactly (same result, same dictionary, same request flag). -/
theorem c9_decode_idempotent (sid : String) (resp : Http) (st : Store) :
    get_device_data sid resp (get_device_data sid resp st).data =
      get_device_data sid resp st ∧
    get_link_data sid resp (get_link_data sid resp st).data =
      get_link_data sid resp st := by
  constructor
  · by_cases h0 : sid = "0"
    · subst h0
      simp only [get_device_data_sid0]
    · by_cases hs : resp.status = 200
      · cases hg : devSearch resp.body with
        | none => simp only [get_device_data_noMatch h0 hs hg]
        | some g =>
          simp only [get_device_data_found h0 hs hg]
          rw [applyAssigns_idem]
      · simp only [get_device_data_badStatus h0 hs]
  · by_cases h0 : sid = "0"
    · subst h0
      simp only [get_link_data_sid0]
    · by_cases hs : resp.status = 200
      · cases hw : wanSearch resp.body with
        | none => simp only [get_link_data_noMatch h0 hs (Or.inl hw)]
        | some gw =>
          cases hf : wifiSearch resp.body with
          | none => simp only [get_link_data_noMatch h0 hs (Or.inr hf)]
          | some gf =>
            simp only [get_link_data_found h0 hs hw hf]
            rw [applyAssigns_idem]
      · simp only [get_link_data_badStatus h0 hs]

/-- C8 counterexample: on a link body whose `wifi[3]` token is `abc` (no
quotes) the decoder stores SSID "b": the code removes the first and last
characters unconditionally (Python `[1:-1]`) rather than stripping quote
characters, which would leave "abc". -/
theorem c8_counterexample_unquoted_token :
    (get_link_data "1" ⟨200, linkBodyNoQuote⟩ emptyStore).data "wifi_ssid" = some "b" ∧
    stripSurroundingQuotes "abc" = "abc" ∧
    some "b" ≠ some ("abc" : String) := by
  decide

/-- C8 amended: the decoded SSID equals the `wifi[3]` token with its first
and last characters removed, whatever they are (the code slices `[1:-1]`
unconditionally); when that token is quote-delimited — length at least 2,
first and last characters `"` — this coincides with the spec's "surrounding
quote characters stripped". -/
theorem c8_amended_ssid_slice (sid : String) (resp : Http) (st : Store)
    (h0 : sid ≠ "0") (hs : resp.status = 200) (gw gf : List Char) (t : String)
    (hw : wanSearch resp.body = some gw) (hf : wifiSearch resp.body = some gf)
    (ht : (tokensOf gf).get? 3 = some t) :
    (get_link_data sid resp st).data "wifi_ssid" = some (pySlice1m1 t) ∧
    (∀ s : String, 2 ≤ s.length → s.toList.head? = some '"' →
      s.toList.getLast? = some '"' → pySlice1m1 s = stripSurroundingQuotes s) := by
  constructor
  · have hts : idx (tokensOf gf) 3 = .ok t := by
      unfold idx
      rw [ht]
    simp only [get_link_data_found h0 hs hw hf]
    rw [applyAssigns_apply]
    simp only [linkSteps, hts, okAssigns]
    have hnone : assocLast (okAssigns
        [ ("wifi_clients", idx (tokensOf gf) 0),
          ("wifi_channel",
            match idx (tokensOf gf) 1 with
            | .error e => .error e
            | .ok v => .ok (if v = "0" then "auto" else v)),
          ("wifi_security",
            match idx (tokensOf gf) 2 with
            | .error e => .error e
            | .ok v => .ok (if v = "0" then "none" else "wpa12psk")),
          ("wan_link", wan_link (tokensOf gw)),
          ("wan_network", wan_network (tokensOf gw)),
          ("wan_sim", wan_sim (tokensOf gw)),
          ("rx", idx (tokensOf gw) 19),
          ("tx", idx (tokensOf gw) 20),
          ("total_data", idx (tokensOf gw) 18),
          ("duration_sec", idx (tokensOf gw) 8),
          ("total_duration", idx (tokensOf gw) 13),
          ("ip", ipStep (tokensOf gw) 14),
          ("dns1", ipStep (tokensOf gw) 15),
          ("dns2", ipStep (tokensOf gw) 16) ]) "wifi_ssid" = none := by
      apply assocLast_of_not_mem
      intro hmem
      have hsub := okAssigns_keys_sub hmem
      simp [List.map] at hsub
    rw [assocLast, hnone]
    simp
  · intro s h2 hh hl
    have hne : s.toList ≠ [] := by
      intro he
      rw [he] at hh
      cases hh
    obtain ⟨l0, x, hdec⟩ : ∃ l0 x, s.toList = l0 ++ [x] :=
      ⟨s.toList.dropLast, s.toList.getLast hne,
        (List.dropLast_append_getLast hne).symm⟩
    have hx : x = '"' := by
      rw [hdec, List.getLast?_concat] at hl
      exact Option.some.inj hl
    subst hx
    have hslen : s.length = s.toList.length := rfl
    have hl0 : l0 ≠ [] := by
      intro he
      rw [he] at hdec
      rw [hslen, hdec] at h2
      simp at h2
    obtain ⟨a, l1, hdec2⟩ : ∃ a l1, l0 = a :: l1 := by
      cases l0 with
      | nil => exact absurd rfl hl0
      | cons a l1 => exact ⟨a, l1, rfl⟩
    have ha : a = '"' := by
      rw [hdec, hdec2] at hh
      simp only [List.cons_append, List.head?_cons] at hh
      exact Option.some.inj hh
    subst ha
    unfold pySlice1m1 stripSurroundingQuotes
    rw [hdec, hdec2]
    simp [List.getLast?_concat, List.dropLast_concat]

/-- C8 witness: the amended theorem at the well-formed body, whose quoted
token decodes to "Net" both ways. -/
theorem c8_amended_ssid_slice_witness :
    (get_link_data "1" ⟨200, linkBodyGood⟩ emptyStore).data "wifi_ssid" =
      some (pySlice1m1 "\"Net\"") ∧
    pySlice1m1 "\"Net\"" = stripSurroundingQuotes "\"Net\"" := by
  have h := c8_amended_ssid_slice "1" ⟨200, linkBodyGood⟩ emptyStore (by decide) rfl
    wanGroupGood wifiGroupGood "\"Net\"" (by decide) (by decide) (by decide)
  exact ⟨h.1, h.2 "\"Net\"" (by decide) (by decide) (by decide)⟩

/-- C10: the device-status extraction pattern admits only digits, whitespace
and commas inside the array literal: on any successful match every comma
token is a (possibly empty) digit string, and a body whose array content
contains any character outside that class (and no parenthesis that would
restart a literal) makes the decoder fail with ParseError. -/
theorem c10_devstatus_charset (body : String) :
    (∀ g, devSearch body = some g → ∀ t ∈ tokensOf g, ∀ ch ∈ t.toList,
      ch.isDigit = true) ∧
    (∀ (c : List Char) (sid : String) (st : Store), (∃ x ∈ c, devClass x = false) →
      '(' ∉ c → ')' ∉ c → sid ≠ "0" →
      get_device_data sid ⟨200, mkDevBody c⟩ st = ⟨.error .parseError, st, true⟩) := by
  constructor
  · intro g hg
    unfold devSearch at hg
    obtain ⟨s, _, hm⟩ := searchCCS_some_suffix hg
    exact tokensOf_digits (matchAt_group hm)
  · intro c sid st hbad hp hc h0
    exact get_device_data_noMatch h0 rfl (devSearch_mkDevBody_none hbad hp hc) st

/-- C10 witness: a digit of a decoded token, and the ParseError on a body
whose array content is the letter x. -/
theorem c10_devstatus_charset_witness :
    Char.isDigit '8' = true ∧
    get_device_data "1" ⟨200, mkDevBody ['x']⟩ emptyStore =
      ⟨.error .parseError, emptyStore, true⟩ :=
  ⟨(c10_devstatus_charset devBodyExample).1 devGroupExample (by decide) "87"
      (by decide) '8' (by decide),
   (c10_devstatus_charset devBodyExample).2 ['x'] "1" emptyStore
      ⟨'x', by decide, by decide⟩ (by decide) (by decide) (by decide)⟩

end M5250
